import Mathlib

/-!
Shallow embedding of the poll-detect-notify bot (`homework.py`) and proofs
about its validator, status interpreter, API client, cursor logic, error
notifier and poll-loop body.

JSON-decoded Python values are modelled by `Value`; Python exceptions that
the program raises or catches are modelled by `PyErr`; fallible code is
embedded as `Except PyErr`.  Logging is modelled as an explicit list of
levelled events, and message delivery through the external channel is
modelled by a boolean outcome supplied by the environment.
-/

set_option autoImplicit false

/-- A JSON-decoded Python value: `None`, `bool`, `int`, `str`, `list`, `dict`
(string-keyed, as produced by `response.json()`). -/
inductive Value where
  | vNone
  | vBool (b : Bool)
  | vInt (n : Int)
  | vStr (s : String)
  | vList (xs : List Value)
  | vDict (entries : List (String × Value))

/-- Python exceptions raised or caught by the program.  Every constructor
models a subclass of `Exception` (the program never raises a bare
`BaseException` such as `KeyboardInterrupt` from inside a poll cycle). -/
inductive PyErr where
  | typeError (msg : String)
  | keyError (msg : String)
  | valueError (msg : String)
  | attributeError (msg : String)
  | connectionError (msg : String)
  | apiAnswerError (msg : String)
  | notAuthenticatedError (msg : String)
  | unknownAPIAnswerError (msg : String)
  | statusError (msg : String)
  | otherError (msg : String)
deriving DecidableEq, Repr

/-- Log levels used by the program (`logger.exception` logs at `ERROR`
level, so it is modelled as `error`). -/
inductive LogLevel where
  | debug
  | error
  | critical
deriving DecidableEq, Repr

/-- One emitted log record: level and rendered text. -/
abbrev LogEvent := LogLevel × String

/-- Bare Python type name of a value, as in `type(v).__name__`. -/
def pyTypeNameBare : Value → String
  | .vNone => "NoneType"
  | .vBool _ => "bool"
  | .vInt _ => "int"
  | .vStr _ => "str"
  | .vList _ => "list"
  | .vDict _ => "dict"

/-- Rendering of `type(v)` as interpolated into f-strings / `.format`. -/
def pyTypeOf (v : Value) : String :=
  "<class " ++ "\x27" ++ pyTypeNameBare v ++ "\x27" ++ ">"

/-- Type name in quotes, as it appears inside Python error messages. -/
def pyTypeQuoted (v : Value) : String :=
  "\x27" ++ pyTypeNameBare v ++ "\x27"

mutual

/-- Python `repr` of a value (element rendering used by `str` on
containers). -/
def pyRepr : Value → String
  | .vNone => "None"
  | .vBool true => "True"
  | .vBool false => "False"
  | .vInt n => toString n
  | .vStr s => "\x27" ++ s ++ "\x27"
  | .vList xs => "[" ++ pyReprList xs ++ "]"
  | .vDict es => "\x7b" ++ pyReprDict es ++ "\x7d"

/-- `repr` of the comma-separated elements of a list. -/
def pyReprList : List Value → String
  | [] => ""
  | [v] => pyRepr v
  | v :: vs => pyRepr v ++ ", " ++ pyReprList vs

/-- `repr` of the comma-separated entries of a dict. -/
def pyReprDict : List (String × Value) → String
  | [] => ""
  | [(k, v)] => "\x27" ++ k ++ "\x27: " ++ pyRepr v
  | (k, v) :: es => "\x27" ++ k ++ "\x27: " ++ pyRepr v ++ ", " ++ pyReprDict es

end

/-- Python `str` of a value, as used in `.format` / f-string interpolation. -/
def pyStr (v : Value) : String :=
  match v with
  | .vStr s => s
  | v => pyRepr v

/-- First value bound to key `k` in a dict entry list (Python dicts have
unique keys, so first match is the dict lookup). -/
def dictFind (es : List (String × Value)) (k : String) : Option Value :=
  (es.find? (fun e => e.1 == k)).map (fun e => e.2)

/-- Python `k in d` for a dict `d` with entry list `es`. -/
def dictHasKey (es : List (String × Value)) (k : String) : Bool :=
  (dictFind es k).isSome

/-- Python `d.get(k)` for a dict: the bound value, or `None` when absent. -/
def dictGetD (es : List (String × Value)) (k : String) : Value :=
  (dictFind es k).getD .vNone

/-- Python `==` between an arbitrary value and a string: only equal strings
compare equal (no cross-type equality for these shapes). -/
def valueEqStr (v : Value) (k : String) : Bool :=
  match v with
  | .vStr s => s == k
  | _ => false

/-- Whether the char list `pat` occurs contiguously inside the second list
(substring test used by Python `str in str`). -/
def charSub (pat : List Char) : List Char → Bool
  | [] => pat.isEmpty
  | c :: rest => List.isPrefixOf pat (c :: rest) || charSub pat rest

/-- Python `needle in hay` for strings: contiguous substring test. -/
def pyStrIn (needle hay : String) : Bool :=
  charSub needle.toList hay.toList

/-- Python `k in v` for a string key `k`: key membership on dicts, element
equality on lists, substring test on strings, `TypeError` otherwise. -/
def pyContains (v : Value) (k : String) : Except PyErr Bool :=
  match v with
  | .vDict es => .ok (dictHasKey es k)
  | .vList xs => .ok (xs.any (fun x => valueEqStr x k))
  | .vStr s => .ok (pyStrIn k s)
  | v => .error (.typeError ("argument of type " ++ pyTypeQuoted v ++ " is not iterable"))

/-- Python `v.get(k)`: dict lookup with `None` default; any non-dict value
has no `get` attribute and raises `AttributeError`. -/
def pyGetAttrGet (v : Value) (k : String) : Except PyErr Value :=
  match v with
  | .vDict es => .ok (dictGetD es k)
  | v => .error (.attributeError (pyTypeQuoted v ++ " object has no attribute " ++ "\x27get\x27"))

/-- Python `v[k]` for a string key: dict subscription (`KeyError` when the
key is absent), `TypeError` for non-dict values. -/
def pySubscriptStr (v : Value) (k : String) : Except PyErr Value :=
  match v with
  | .vDict es =>
    match dictFind es k with
    | some x => .ok x
    | none => .error (.keyError k)
  | v => .error (.typeError (pyTypeQuoted v ++ " is not subscriptable"))

/-- Whether a value is hashable in Python (lists and dicts are not). -/
def pyHashable (v : Value) : Bool :=
  match v with
  | .vList _ => false
  | .vDict _ => false
  | _ => true

/-- Whether a value is a Python `dict`
(`isinstance(v, dict) or issubclass(type(v), dict)`). -/
def Value.isDict : Value → Bool
  | .vDict _ => true
  | _ => false

/-- Whether a value is a Python `list`
(`isinstance(v, list) or issubclass(type(v), list)`). -/
def Value.isList : Value → Bool
  | .vList _ => true
  | _ => false

/-- Python `isinstance(v, int)`: `bool` is a subclass of `int`. -/
def isInstInt (v : Value) : Bool :=
  match v with
  | .vInt _ => true
  | .vBool _ => true
  | _ => false

/-- Python `int(v)` on values that pass `isInstInt`. -/
def toPyInt (v : Value) : Int :=
  match v with
  | .vInt n => n
  | .vBool b => if b then 1 else 0
  | _ => 0

/-- Python `str(e)` of an in-flight exception as interpolated into
`.format(error=...)`; `str` of a `KeyError` is the `repr` of its argument,
hence the quotes. -/
def pyErrStr (e : PyErr) : String :=
  match e with
  | .keyError m => "\x27" ++ m ++ "\x27"
  | .typeError m => m
  | .valueError m => m
  | .attributeError m => m
  | .connectionError m => m
  | .apiAnswerError m => m
  | .notAuthenticatedError m => m
  | .unknownAPIAnswerError m => m
  | .statusError m => m
  | .otherError m => m

/-! ### Constants and message templates from `homework.py` -/

/-- Environment-supplied credential (`os.getenv`): an input to the program,
modelled as an arbitrary fixed string; no claim depends on its value. -/
def PRACTICUM_TOKEN : String := "<PRACTICUM_TOKEN>"

/-- Polling interval in seconds. -/
def RETRY_PERIOD : Int := 600

/-- Fixed API endpoint. -/
def ENDPOINT : String :=
  "https://practicum.yandex.ru/api/user_api/homework_statuses/"

/-- Rendering of the `HEADERS` dict as interpolated into error messages. -/
def HEADERS_STR : String :=
  "\x7b\x27Authorization\x27: \x27OAuth " ++ PRACTICUM_TOKEN ++ "\x27\x7d"

/-- Fixed verdict table `HOMEWORK_VERDICTS`. -/
def HOMEWORK_VERDICTS : List (String × String) :=
  [("approved", "Работа проверена: ревьюеру всё понравилось. Ура!"),
   ("reviewing", "Работа взята на проверку ревьюером."),
   ("rejected", "Работа проверена: у ревьюера есть замечания.")]

/-- Template `STATUS_TEXT` applied to a rendered name and verdict text. -/
def STATUS_TEXT (homework_name verdict : String) : String :=
  "Изменился статус проверки " ++ "работы \"" ++ homework_name ++ "\". " ++ verdict

/-- Initial / fallback cursor value `DEFAULT_FROM_DATE`. -/
def DEFAULT_FROM_DATE : Int := 0

/-- Template `SEND_MESSAGE_ERROR_TEXT`. -/
def SEND_MESSAGE_ERROR_TEXT (message details : String) : String :=
  "Ошибка при отправке сообщения: " ++ message ++ ". Детали: " ++ details

/-- Template `API_TYPE_ERROR_TEXT`. -/
def API_TYPE_ERROR_TEXT (response : String) : String :=
  "Некорректный тип ответа API: " ++ response

/-- Template `VALUE_NOT_LIST_ERROR_TEXT`. -/
def VALUE_NOT_LIST_ERROR_TEXT (key_name response_type : String) : String :=
  "Значение ключа \"" ++ key_name ++ "\" " ++ "не является списком. Тип ответа API: " ++ response_type

/-- Template `MISSING_API_KEY_ERROR_TEXT`. -/
def MISSING_API_KEY_ERROR_TEXT (key_name : String) : String :=
  "В ответе API отсутствует ожидаемый ключ: " ++ key_name

/-- Template `FOR_GET_API_ANSWER_ERROR_TEXT`. -/
def FOR_GET_API_ANSWER_ERROR_TEXT (text endpoint headers params error : String) : String :=
  text ++ "\nПараметры запроса:" ++ "\nEndpoint=" ++ endpoint ++ ";" ++ "Headers="
    ++ headers ++ ";" ++ "Params=" ++ params ++ ".\n" ++ "\n" ++ error

/-- Constant `NETWORK_ERROR_TEXT`. -/
def NETWORK_ERROR_TEXT : String := "Ошибка сети при отправке GET-запроса!"

/-- Constant `UNKNOWN_API_ERROR_TEXT`.  The `status_code` placeholder is
never filled in by the program (`.format` is applied to the outer template
only), so it stays literal. -/
def UNKNOWN_API_ERROR_TEXT : String :=
  "Неизвестная ошибка ответа API. Code: \x7bstatus_code\x7d"

/-- Template `NOT_CORRECT_STATUS_ERROR_TEXT`. -/
def NOT_CORRECT_STATUS_ERROR_TEXT (status : String) : String :=
  "Неожиданный статус домашней работы: " ++ status

/-- Template `CURRENT_DATE_TYPE_ERROR_TEXT`. -/
def CURRENT_DATE_TYPE_ERROR_TEXT (date_type : String) : String :=
  "Неожиданный тип значения ключа " ++ "\"current_date\" ответа API: " ++ date_type

/-- Template `NOT_NEW_STATUS_LOG_TEXT`. -/
def NOT_NEW_STATUS_LOG_TEXT (homework : String) : String :=
  "В ответе отсутствует новый статус: " ++ homework

/-- Template `SENT_SUCCESSFULLY_LOG_TEXT`. -/
def SENT_SUCCESSFULLY_LOG_TEXT (message : String) : String :=
  "Сообщение: \"" ++ message ++ "\" - отправлено успешно."

/-- Template `STANDARD_ERROR_LOG_TEXT`. -/
def STANDARD_ERROR_LOG_TEXT (error : String) : String :=
  "Произошла ошибка во время работы бота." ++ "\nПодробности:\n" ++ error

/-- Template `LOG_TEXT_FOR_UNKNOWN_ERROR`. -/
def LOG_TEXT_FOR_UNKNOWN_ERROR (error : String) : String :=
  "Неизвестная ошибка в работе бота." ++ "\nПодробности:\n" ++ error

/-! ### `check_response` (ResponseValidator) -/

/-- `check_response`: raises `TypeError` when the response is not a dict,
`KeyError` when the `homeworks` key is absent, `TypeError` when the value
under `homeworks` is not a list; otherwise returns normally. -/
def check_response (response : Value) : Except PyErr Unit :=
  match response with
  | .vDict es =>
    if dictHasKey es "homeworks" = false then
      .error (.keyError (MISSING_API_KEY_ERROR_TEXT "homeworks"))
    else if (dictGetD es "homeworks").isList = false then
      .error (.typeError (VALUE_NOT_LIST_ERROR_TEXT "homeworks" (pyTypeOf (dictGetD es "homeworks"))))
    else
      .ok ()
  | v => .error (.typeError (API_TYPE_ERROR_TEXT (pyTypeOf v)))

/-! ### `parse_status` (StatusInterpreter) -/

/-- Python `x in HOMEWORK_VERDICTS` (dict key membership): `TypeError` for
unhashable `x`, otherwise true exactly for the three verdict keys. -/
def verdictMember (v : Value) : Except PyErr Bool :=
  match v with
  | .vList _ => .error (.typeError ("unhashable type: " ++ pyTypeQuoted v))
  | .vDict _ => .error (.typeError ("unhashable type: " ++ pyTypeQuoted v))
  | .vStr s => .ok ((HOMEWORK_VERDICTS.lookup s).isSome)
  | _ => .ok false

/-- Python `HOMEWORK_VERDICTS.get(x)`: `TypeError` for unhashable `x`,
otherwise the verdict text when `x` is one of the three keys. -/
def verdictsGet (v : Value) : Except PyErr (Option String) :=
  match v with
  | .vList _ => .error (.typeError ("unhashable type: " ++ pyTypeQuoted v))
  | .vDict _ => .error (.typeError ("unhashable type: " ++ pyTypeQuoted v))
  | .vStr s => .ok (HOMEWORK_VERDICTS.lookup s)
  | _ => .ok none

/-- Rendering of an `Option String` format argument (`None` when absent). -/
def optVerdictStr (o : Option String) : String :=
  match o with
  | some s => s
  | none => "None"

/-- `parse_status`: checks both keys are present (first `homework_name`,
then `status`), checks `homework.get("status")` against the verdict table,
and renders `STATUS_TEXT` from `homework["homework_name"]` and
`HOMEWORK_VERDICTS.get(homework["status"])` (format arguments evaluated
left to right). -/
def parse_status (homework : Value) : Except PyErr String :=
  match pyContains homework "homework_name" with
  | .error e => .error e
  | .ok false => .error (.keyError (MISSING_API_KEY_ERROR_TEXT "homework_name"))
  | .ok true =>
    match pyContains homework "status" with
    | .error e => .error e
    | .ok false => .error (.keyError (MISSING_API_KEY_ERROR_TEXT "status"))
    | .ok true =>
      match pyGetAttrGet homework "status" with
      | .error e => .error e
      | .ok statusGot =>
        match verdictMember statusGot with
        | .error e => .error e
        | .ok false => .error (.statusError (NOT_CORRECT_STATUS_ERROR_TEXT (pyStr statusGot)))
        | .ok true =>
          match pySubscriptStr homework "homework_name" with
          | .error e => .error e
          | .ok nameV =>
            match pySubscriptStr homework "status" with
            | .error e => .error e
            | .ok statusV =>
              match verdictsGet statusV with
              | .error e => .error e
              | .ok verdict => .ok (STATUS_TEXT (pyStr nameV) (optVerdictStr verdict))

/-! ### `get_api_answer` (ApiClient) -/

/-- A completed HTTP exchange: status code of `response` and the parsed
JSON body returned by `response.json()`. -/
structure HttpResponse where
  status_code : Int
  body : Value

/-- `get_api_answer`: the transport argument is `.error s` when
`requests.get` or `response.json()` raises an exception rendering as `s`
(wrapped into `ConnectionError`), and `.ok r` when both succeed.  On a
completed exchange the embedded-payload checks run first (`error` key,
then `code` key), then the HTTP status check, then `check_response`, and
only then is the parsed body returned. -/
def get_api_answer (transport : Except String HttpResponse) (timestamp : Int) :
    Except PyErr Value :=
  match transport with
  | .error errText =>
    .error (.connectionError (FOR_GET_API_ANSWER_ERROR_TEXT NETWORK_ERROR_TEXT
      ENDPOINT HEADERS_STR (toString timestamp) errText))
  | .ok r =>
    let data := r.body
    match pyContains data "error" with
    | .error e => .error e
    | .ok true =>
      -- raise APIAnswerError(f'Error: {data.get("error").get("error")}\nCode: {data.get("cose")}')
      match pyGetAttrGet data "error" with
      | .error e => .error e
      | .ok inner =>
        match pyGetAttrGet inner "error" with
        | .error e => .error e
        | .ok innerErr =>
          match pyGetAttrGet data "cose" with
          | .error e => .error e
          | .ok cose =>
            .error (.apiAnswerError ("Error: " ++ pyStr innerErr ++ "\n" ++ "Code: " ++ pyStr cose))
    | .ok false =>
      match pyContains data "code" with
      | .error e => .error e
      | .ok true =>
        -- raise NotAuthenticatedError(f'Code: {data.get("code")}\nMessage: {data.get("message")}')
        match pyGetAttrGet data "code" with
        | .error e => .error e
        | .ok codeV =>
          match pyGetAttrGet data "message" with
          | .error e => .error e
          | .ok msgV =>
            .error (.notAuthenticatedError ("Code: " ++ pyStr codeV ++ "\n" ++ "Message: " ++ pyStr msgV))
      | .ok false =>
        if r.status_code ≠ 200 then
          .error (.unknownAPIAnswerError (FOR_GET_API_ANSWER_ERROR_TEXT
            UNKNOWN_API_ERROR_TEXT ENDPOINT HEADERS_STR (toString timestamp) ""))
        else
          match check_response data with
          | .error e => .error e
          | .ok _ => .ok data

/-! ### `get_from_date` (Cursor update) -/

/-- The try block of `get_from_date`: `KeyError` when `current_date` is
absent, `TypeError` when its value is not an `int` (the raise is written
`TypeError`, although only `KeyError` and `ValueError` have except
clauses), otherwise the integer value the `else` branch would return. -/
def get_from_date_try (api_answer : Value) : Except PyErr Int :=
  match api_answer with
  | .vDict es =>
    if dictHasKey es "current_date" = false then
      .error (.keyError (MISSING_API_KEY_ERROR_TEXT "current_date"))
    else if isInstInt (dictGetD es "current_date") = false then
      .error (.typeError (CURRENT_DATE_TYPE_ERROR_TEXT (pyTypeOf (dictGetD es "current_date"))))
    else
      .ok (toPyInt (dictGetD es "current_date"))
  | _ =>
    -- only ever called on a value that has passed check_response, i.e. a dict
    .error (.typeError (API_TYPE_ERROR_TEXT "not a dict"))

/-- `get_from_date`: the `finally` block ends with
`return DEFAULT_FROM_DATE`, which in Python runs after every outcome of
the try statement and replaces it — it overrides the `else` branch's
`return int(...)`, discards the uncaught in-flight `TypeError`, and
follows the logged `except KeyError` branch.  The function therefore
always returns `DEFAULT_FROM_DATE`; only the emitted log differs. -/
def get_from_date (api_answer : Value) : List LogEvent × Int :=
  match get_from_date_try api_answer with
  | .error (.keyError _) =>
    -- except KeyError: logger.exception(...); then the finally return runs
    ([(.error, "Ошибка значения ключа current_date")], DEFAULT_FROM_DATE)
  | .error _ =>
    -- a TypeError matches no except clause, but the return in finally
    -- discards the in-flight exception
    ([], DEFAULT_FROM_DATE)
  | .ok _ =>
    -- the else-branch return value is superseded by the return in finally
    ([], DEFAULT_FROM_DATE)

/-! ### `send_message` and `send_error_message` (Notifier) -/

/-- `send_message`: attempts `bot.send_message`; the whole attempt is
wrapped in `try/except Exception`, so a delivery failure is logged at
error level and swallowed — the function returns normally either way.
`deliveryOk` is the environment's verdict on the delivery attempt; the
result carries the delivered messages and the emitted log.  The rendered
exception text is environment data, modelled by a fixed placeholder. -/
def send_message (deliveryOk : Bool) (message : String) :
    Except PyErr (List String × List LogEvent) :=
  if deliveryOk then
    .ok ([message], [(.debug, SENT_SUCCESSFULLY_LOG_TEXT message)])
  else
    .ok ([], [(.error, SEND_MESSAGE_ERROR_TEXT message "<exception>")])

/-- `send_error_message`: skips the send when the text is already in the
sent-messages list; otherwise calls `send_message` and then appends the
text.  The append runs whenever `send_message` returns (which it always
does); only an exception escaping `send_message` would skip it. -/
def send_error_message (deliveryOk : Bool) (message : String) (messages : List String) :
    Except PyErr (List String × List LogEvent × List String) :=
  if messages.contains message then
    .ok ([], [], messages)
  else
    match send_message deliveryOk message with
    | .error e => .error e
    | .ok (d, l) => .ok (d, l, messages ++ [message])

/-! ### `logic_for_while_loop` (PollLoop cycle) -/

/-- Environment of one poll cycle: the transport outcome of the HTTP
exchange and the delivery outcome of the (at most one) Telegram send. -/
structure CycleEnv where
  transport : Except String HttpResponse
  deliveryOk : Bool

/-- The list under a `Value` known to be a list (`homeworks` after
`check_response` has accepted the answer). -/
def asList (v : Value) : List Value :=
  match v with
  | .vList xs => xs
  | _ => []

/-- The try block of `logic_for_while_loop`: fetch, act on the first
homework (or log at debug level when the list is empty), and compute the
return value via `get_from_date`.  Returns the deliveries, the log, and
either the value returned or the exception that escaped the block. -/
def cycleBody (env : CycleEnv) (timestamp : Int) :
    List String × List LogEvent × Except PyErr Int :=
  match get_api_answer env.transport timestamp with
  | .error e => ([], [], .error e)
  | .ok api_answer =>
    let homework := asList (dictGetD (match api_answer with | .vDict es => es | _ => []) "homeworks")
    if homework.length > 0 then
      match parse_status (homework.headD .vNone) with
      | .error e => ([], [], .error e)
      | .ok statusMsg =>
        match send_message env.deliveryOk statusMsg with
        | .error e => ([], [], .error e)
        | .ok (delivered, slog) =>
          let (glog, ts) := get_from_date api_answer
          (delivered, slog ++ glog, .ok ts)
    else
      let (glog, ts) := get_from_date api_answer
      ([], (LogLevel.debug, NOT_NEW_STATUS_LOG_TEXT (pyStr (Value.vList homework))) :: glog, .ok ts)

/-- Result of one call to `logic_for_while_loop`: the value returned (the
next cycle's `from_date`), the sent-messages list after the call, the
messages delivered during the call, and the emitted log. -/
structure CycleResult where
  nextTimestamp : Int
  messages : List String
  delivered : List String
  log : List LogEvent
deriving Repr

/-- Body shared by every except clause of `logic_for_while_loop`: format
the message with the clause's template, log it at error level, pass it to
`send_error_message`, and fall through to `return DEFAULT_FROM_DATE`.  An
exception raised inside the clause itself would escape the function. -/
def exceptClause (template : String → String) (env : CycleEnv) (messages : List String)
    (delivered : List String) (log : List LogEvent) (e : PyErr) :
    Except PyErr CycleResult :=
  let message := template (pyErrStr e)
  match send_error_message env.deliveryOk message messages with
  | .error e2 => .error e2
  | .ok (d2, l2, msgs2) =>
    .ok ⟨DEFAULT_FROM_DATE, msgs2, delivered ++ d2, log ++ [(.error, message)] ++ l2⟩

/-- `logic_for_while_loop`: runs the try block and dispatches an escaping
exception through the chain of except clauses in source order — six named
classes with `STANDARD_ERROR_LOG_TEXT`, then `except Exception` with
`LOG_TEXT_FOR_UNKNOWN_ERROR` for everything else (every modelled
exception derives from `Exception`).  On success it returns the value of
`get_from_date`; after a handled exception it returns
`DEFAULT_FROM_DATE`. -/
def logic_for_while_loop (env : CycleEnv) (timestamp : Int) (messages : List String) :
    Except PyErr CycleResult :=
  match cycleBody env timestamp with
  | (delivered, log, .ok ts) => .ok ⟨ts, messages, delivered, log⟩
  | (delivered, log, .error e) =>
    match e with
    | .apiAnswerError _ => exceptClause STANDARD_ERROR_LOG_TEXT env messages delivered log e
    | .unknownAPIAnswerError _ => exceptClause STANDARD_ERROR_LOG_TEXT env messages delivered log e
    | .notAuthenticatedError _ => exceptClause STANDARD_ERROR_LOG_TEXT env messages delivered log e
    | .statusError _ => exceptClause STANDARD_ERROR_LOG_TEXT env messages delivered log e
    | .typeError _ => exceptClause STANDARD_ERROR_LOG_TEXT env messages delivered log e
    | .keyError _ => exceptClause STANDARD_ERROR_LOG_TEXT env messages delivered log e
    | e => exceptClause LOG_TEXT_FOR_UNKNOWN_ERROR env messages delivered log e

/-! ### `clean_error_messages` and the main loop step -/

/-- One day of model time: `datetime` values are modelled as integers
measured in days (the claims depend only on the ordering and on the
boundary rolling forward by one day). -/
def ONE_DAY : Int := 1

/-- `clean_error_messages`: when `datetime.today() >= clean_date` the
sent-messages list is cleared and the boundary moves to tomorrow;
otherwise both are unchanged.  `today` is the ambient `datetime.today()`
passed explicitly. -/
def clean_error_messages (today clean_date : Int) (messages : List String) :
    Int × List String :=
  if clean_date ≤ today then
    (today + ONE_DAY, [])
  else
    (clean_date, messages)

/-- State carried across iterations of the `while True` loop in `main`. -/
structure LoopState where
  timestamp : Int
  clean_messages_date : Int
  sent_messages : List String
deriving Repr

/-- One iteration of the `while True` loop in `main`:
`clean_error_messages`, then `logic_for_while_loop`, then the fixed
`time.sleep(RETRY_PERIOD)` (which changes no modelled state). -/
def main_step (env : CycleEnv) (today : Int) (s : LoopState) : Except PyErr LoopState :=
  let (cd, msgs) := clean_error_messages today s.clean_messages_date s.sent_messages
  match logic_for_while_loop env s.timestamp msgs with
  | .error e => .error e
  | .ok r => .ok ⟨r.nextTimestamp, cd, r.messages⟩

/-- A run of `send_error_message` calls within one dedupe window: each
event is the delivery outcome and the error text of one failing cycle.
Returns all texts delivered across the run and the final sent-messages
list.  (`send_error_message` never raises; the error arm is unreachable.) -/
def sendErrorsTrace (events : List (Bool × String)) (messages : List String) :
    List String × List String :=
  match events with
  | [] => ([], messages)
  | (ok, m) :: rest =>
    match send_error_message ok m messages with
    | .error _ => ([], messages)
    | .ok (d, _, msgs2) =>
      let (dRest, fin) := sendErrorsTrace rest msgs2
      (d ++ dRest, fin)

/-! ### Helper lemmas -/

/-- Full characterization of `send_error_message`: it always returns
normally; when the text is new, the append happens for both delivery
outcomes. -/
theorem send_error_message_spec (ok : Bool) (m : String) (msgs : List String) :
    send_error_message ok m msgs =
      if msgs.contains m then .ok ([], [], msgs)
      else .ok ((if ok then [m] else []),
                (if ok then [(LogLevel.debug, SENT_SUCCESSFULLY_LOG_TEXT m)]
                 else [(LogLevel.error, SEND_MESSAGE_ERROR_TEXT m "<exception>")]),
                msgs ++ [m]) := by
  unfold send_error_message send_message
  cases ok <;> by_cases h : msgs.contains m <;> simp [h]

/-- Every except clause of `logic_for_while_loop` completes normally,
returns `DEFAULT_FROM_DATE`, logs its message at error level, and updates
the sent-messages list through `send_error_message`. -/
theorem exceptClause_spec (template : String → String) (env : CycleEnv)
    (messages delivered : List String) (log : List LogEvent) (e : PyErr) :
    ∃ r, exceptClause template env messages delivered log e = .ok r
      ∧ r.nextTimestamp = DEFAULT_FROM_DATE
      ∧ (LogLevel.error, template (pyErrStr e)) ∈ r.log
      ∧ ∃ d2 l2, send_error_message env.deliveryOk (template (pyErrStr e)) messages
          = .ok (d2, l2, r.messages) := by
  unfold exceptClause
  by_cases h : template (pyErrStr e) ∈ messages
  · refine ⟨⟨DEFAULT_FROM_DATE, messages, delivered,
      log ++ [(LogLevel.error, template (pyErrStr e))]⟩, ?_, rfl, by simp, [], [], ?_⟩ <;>
      simp [send_error_message_spec, h]
  · refine ⟨⟨DEFAULT_FROM_DATE, messages ++ [template (pyErrStr e)],
      delivered ++ (if env.deliveryOk then [template (pyErrStr e)] else []),
      log ++ [(LogLevel.error, template (pyErrStr e))] ++
        (if env.deliveryOk then [(LogLevel.debug, SENT_SUCCESSFULLY_LOG_TEXT (template (pyErrStr e)))]
         else [(LogLevel.error, SEND_MESSAGE_ERROR_TEXT (template (pyErrStr e)) "<exception>")])⟩,
      ?_, rfl, by simp, ?_⟩ <;>
      cases hd : env.deliveryOk <;> simp [send_error_message_spec, h, hd]

/-- `logic_for_while_loop` never raises: every branch of the try block and
every except clause returns normally. -/
theorem logic_isOk (env : CycleEnv) (t : Int) (msgs : List String) :
    ∃ r, logic_for_while_loop env t msgs = .ok r := by
  unfold logic_for_while_loop
  rcases hcb : cycleBody env t with ⟨d, lg, out⟩
  rcases out with e | ts
  · cases e <;>
      · obtain ⟨r, hr, -⟩ := exceptClause_spec _ env msgs d lg _
        exact ⟨r, hr⟩
  · exact ⟨⟨ts, msgs, d, lg⟩, rfl⟩

/-- Unfolding of one step of `sendErrorsTrace` through the
`send_error_message` characterization. -/
theorem sendErrorsTrace_cons (ok : Bool) (m : String) (rest : List (Bool × String))
    (msgs : List String) :
    sendErrorsTrace ((ok, m) :: rest) msgs =
      if m ∈ msgs then sendErrorsTrace rest msgs
      else ((if ok then [m] else []) ++ (sendErrorsTrace rest (msgs ++ [m])).1,
            (sendErrorsTrace rest (msgs ++ [m])).2) := by
  by_cases h : m ∈ msgs <;>
    cases ok <;>
      simp [sendErrorsTrace, send_error_message_spec, h]

/-- A text already recorded as sent is never delivered again during a run
with no clears. -/
theorem trace_count_zero (events : List (Bool × String)) (msgs : List String)
    (t : String) (h : t ∈ msgs) :
    ((sendErrorsTrace events msgs).1.count t) = 0 := by
  induction events generalizing msgs with
  | nil => simp [sendErrorsTrace]
  | cons p rest ih =>
    obtain ⟨ok, m⟩ := p
    rw [sendErrorsTrace_cons]
    by_cases hm : m ∈ msgs
    · simpa [hm] using ih msgs h
    · have hmt : ¬ (t = m) := fun he => hm (he ▸ h)
      have ht : t ∈ msgs ++ [m] := by simp [h]
      cases ok <;> simp [hm, List.count_append, hmt, ih (msgs ++ [m]) ht]

/-- Across any run of error notifications with no clears, each text is
delivered at most once. -/
theorem trace_count_le_one (events : List (Bool × String)) (msgs : List String)
    (t : String) :
    ((sendErrorsTrace events msgs).1.count t) ≤ 1 := by
  induction events generalizing msgs with
  | nil => simp [sendErrorsTrace]
  | cons p rest ih =>
    obtain ⟨ok, m⟩ := p
    rw [sendErrorsTrace_cons]
    by_cases hm : m ∈ msgs
    · simpa [hm] using ih msgs
    · by_cases hmt : t = m
      · subst hmt
        have h0 : ((sendErrorsTrace rest (msgs ++ [t])).1.count t) = 0 :=
          trace_count_zero _ _ _ (by simp)
        cases ok <;> simp [hm, List.count_append, h0]
      · cases ok <;> simp [hm, List.count_append, hmt, ih (msgs ++ [m])]

/-- `v.get(k)` on a dict value is plain lookup with `None` default. -/
theorem pyGetAttrGet_dict (es : List (String × Value)) (k : String) :
    pyGetAttrGet (.vDict es) k = .ok (dictGetD es k) := rfl

/-! ### Claim theorems -/

/-- A fully successful cycle environment: HTTP 200, body
`{"homeworks": [], "current_date": 1700}`, working delivery channel. -/
def env1700 : CycleEnv :=
  ⟨.ok ⟨200, .vDict [("homeworks", .vList []), ("current_date", .vInt 1700)]⟩, true⟩

/-- Claim C1 (code bug): the claim says the value returned by
`logic_for_while_loop` never falls below the timestamp it was called with,
but even on a fully successful cycle carrying `current_date = 1700` the
function returns `DEFAULT_FROM_DATE = 0`, rewinding a cursor of 1000: the
`return` in the `finally` block of `get_from_date` overrides the computed
value, contradicting that function's own stated purpose. -/
theorem c1_cursor_rewinds_on_success :
    (logic_for_while_loop env1700 1000 []).map CycleResult.nextTimestamp = .ok 0
    ∧ ¬ ((1000 : Int) ≤ 0) :=
  ⟨rfl, by decide⟩

/-- Claim C2 (code bug): for the response
`{"homeworks": [], "current_date": 1700}` the cycle delivers nothing and
logs only the debug "no new status" line, as claimed — but the returned
cursor is `0`, not the server-provided `1700`, because the `return` in the
`finally` block of `get_from_date` overrides the extracted value. -/
theorem c2_empty_list_cycle :
    logic_for_while_loop env1700 100 [] =
      .ok ⟨0, [], [], [(LogLevel.debug, NOT_NEW_STATUS_LOG_TEXT "[]")]⟩
    ∧ ((0 : Int) ≠ 1700) :=
  ⟨rfl, by decide⟩

/-- Claim C3, counterexample: with a failing delivery channel,
`send_error_message` still inserts the text into the sent-messages list
(first conjunct), so the next occurrence of the same text is not
re-announced even though delivery never succeeded (second conjunct). -/
theorem c3_insert_despite_failed_send :
    send_error_message false "err" [] =
      .ok ([], [(LogLevel.error, SEND_MESSAGE_ERROR_TEXT "err" "<exception>")], ["err"])
    ∧ send_error_message true "err" ["err"] = .ok ([], [], ["err"]) :=
  ⟨rfl, rfl⟩

/-- Claim C3, amended: `send_error_message` checks membership in the
sent-messages list before sending, and appends the text unconditionally
after the send attempt returns — `send_message` swallows delivery
failures, so the append does not depend on delivery success, and a text
whose delivery failed is not re-announced while it stays in the list. -/
theorem c3_append_unconditional (ok : Bool) (m : String) (msgs : List String) :
    (msgs.contains m = true → send_error_message ok m msgs = .ok ([], [], msgs))
    ∧ (msgs.contains m = false →
        send_error_message ok m msgs =
          .ok ((if ok then [m] else []),
               (if ok then [(LogLevel.debug, SENT_SUCCESSFULLY_LOG_TEXT m)]
                else [(LogLevel.error, SEND_MESSAGE_ERROR_TEXT m "<exception>")]),
               msgs ++ [m])) := by
  constructor <;> intro h <;> rw [send_error_message_spec, h] <;> rfl

/-- Witness for the amended C3 at concrete inputs. -/
theorem c3_append_unconditional_witness :
    send_error_message false "e1" ["e1"] = .ok ([], [], ["e1"])
    ∧ send_error_message false "e1" ["e2"] =
        .ok ([], [(LogLevel.error, SEND_MESSAGE_ERROR_TEXT "e1" "<exception>")], ["e2", "e1"]) :=
  ⟨(c3_append_unconditional false "e1" ["e1"]).1 (by decide),
   (c3_append_unconditional false "e1" ["e2"]).2 (by decide)⟩

/-- Claim C4, counterexample: a transport-level well-formed exchange
(HTTP 200, parsed dict body, no embedded `error`/`code` payload) makes
`get_api_answer` itself raise a shape error, because it runs
`check_response` before returning. -/
theorem c4_fetch_raises_shape_error :
    get_api_answer (.ok ⟨200, .vDict []⟩) 0 =
      .error (.keyError (MISSING_API_KEY_ERROR_TEXT "homeworks")) :=
  rfl

/-- Claim C4, amended: on a transport success with HTTP 200 and no
embedded `error`/`code` payload, `get_api_answer` returns the parsed body
gated through `check_response`: the body is returned unchanged exactly
when it passes shape validation, and a shape violation makes the fetch
itself raise the validator's error. -/
theorem c4_fetch_gates_through_validator (r : HttpResponse) (t : Int)
    (hs : r.status_code = 200)
    (he : pyContains r.body "error" = .ok false)
    (hc : pyContains r.body "code" = .ok false) :
    get_api_answer (.ok r) t = (check_response r.body).map (fun _ => r.body) := by
  obtain ⟨sc, body⟩ := r
  simp only at hs he hc
  subst hs
  simp only [get_api_answer, he, hc]
  cases h : check_response body <;> simp [h, Except.map]

/-- Witness for the amended C4 at a concrete input. -/
theorem c4_fetch_gates_through_validator_witness :
    get_api_answer (.ok ⟨200, .vDict [("homeworks", .vStr "bad")]⟩) 5 =
      (check_response (.vDict [("homeworks", .vStr "bad")])).map
        (fun _ => Value.vDict [("homeworks", .vStr "bad")]) :=
  c4_fetch_gates_through_validator ⟨200, .vDict [("homeworks", .vStr "bad")]⟩ 5 rfl rfl rfl

/-- Claim C5, counterexample: a record with both keys whose status value
is present but outside the verdict set fails with `TypeError`, not with
the unknown-status error, when the status value is unhashable — Python
`in` on a dict raises for unhashable keys before the membership test. -/
theorem c5_unhashable_status_type_error :
    parse_status (.vDict [("homework_name", .vStr "HW"), ("status", .vList [])]) =
      .error (.typeError ("unhashable type: " ++ "\x27list\x27")) :=
  rfl

/-- Claim C5, amended: for a record with both keys and a known status,
`parse_status` renders the message from the assignment name and the
mapped verdict; a missing key fails with the missing-key `KeyError`
(`homework_name` is checked first); a present, hashable status outside
the verdict set fails with the unknown-status error; a present but
unhashable status value (a list or a dict) fails with `TypeError`
instead. -/
theorem c5_parse_status_spec (es : List (String × Value)) :
    (∀ nameV s verdict, dictFind es "homework_name" = some nameV →
      dictFind es "status" = some (.vStr s) →
      HOMEWORK_VERDICTS.lookup s = some verdict →
      parse_status (.vDict es) = .ok (STATUS_TEXT (pyStr nameV) verdict))
    ∧ (dictHasKey es "homework_name" = false →
        parse_status (.vDict es) = .error (.keyError (MISSING_API_KEY_ERROR_TEXT "homework_name")))
    ∧ (dictHasKey es "homework_name" = true → dictHasKey es "status" = false →
        parse_status (.vDict es) = .error (.keyError (MISSING_API_KEY_ERROR_TEXT "status")))
    ∧ (∀ sv, dictHasKey es "homework_name" = true → dictFind es "status" = some sv →
        verdictMember sv = .ok false →
        parse_status (.vDict es) = .error (.statusError (NOT_CORRECT_STATUS_ERROR_TEXT (pyStr sv))))
    ∧ (∀ sv m, dictHasKey es "homework_name" = true → dictFind es "status" = some sv →
        verdictMember sv = .error (.typeError m) →
        parse_status (.vDict es) = .error (.typeError m)) := by
  refine ⟨?_, ?_, ?_, ?_, ?_⟩
  · intro nameV s verdict hn hs hv
    have hkn : dictHasKey es "homework_name" = true := by simp [dictHasKey, hn]
    have hks : dictHasKey es "status" = true := by simp [dictHasKey, hs]
    simp only [parse_status, pyContains, hkn, hks, pyGetAttrGet, dictGetD, hn, hs,
      pySubscriptStr, verdictMember, verdictsGet, Option.getD, optVerdictStr, hv,
      Option.isSome]
  · intro h
    simp only [parse_status, pyContains, h]
  · intro hn h
    simp only [parse_status, pyContains, hn, h]
  · intro sv hn hs hm
    have hks : dictHasKey es "status" = true := by simp [dictHasKey, hs]
    simp only [parse_status, pyContains, hn, hks, pyGetAttrGet, dictGetD, hs,
      Option.getD, hm]
  · intro sv m hn hs hm
    have hks : dictHasKey es "status" = true := by simp [dictHasKey, hs]
    simp only [parse_status, pyContains, hn, hks, pyGetAttrGet, dictGetD, hs,
      Option.getD, hm]

/-- Witness for the amended C5: each branch applied at a concrete record. -/
theorem c5_parse_status_spec_witness :
    parse_status (.vDict [("homework_name", .vStr "HW1"), ("status", .vStr "approved")]) =
      .ok (STATUS_TEXT "HW1" "Работа проверена: ревьюеру всё понравилось. Ура!")
    ∧ parse_status (.vDict []) =
        .error (.keyError (MISSING_API_KEY_ERROR_TEXT "homework_name"))
    ∧ parse_status (.vDict [("homework_name", .vStr "HW1")]) =
        .error (.keyError (MISSING_API_KEY_ERROR_TEXT "status"))
    ∧ parse_status (.vDict [("homework_name", .vStr "HW1"), ("status", .vStr "odd")]) =
        .error (.statusError (NOT_CORRECT_STATUS_ERROR_TEXT "odd"))
    ∧ parse_status (.vDict [("homework_name", .vStr "HW1"), ("status", .vDict [])]) =
        .error (.typeError ("unhashable type: " ++ "\x27dict\x27")) :=
  ⟨(c5_parse_status_spec _).1 (.vStr "HW1") "approved" _ rfl rfl rfl,
   (c5_parse_status_spec _).2.1 rfl,
   (c5_parse_status_spec _).2.2.1 rfl rfl,
   (c5_parse_status_spec _).2.2.2.1 (.vStr "odd") rfl rfl rfl,
   (c5_parse_status_spec _).2.2.2.2 (.vDict []) _ rfl rfl rfl⟩

/-- Claim C6 (confirmed): `check_response` raises `TypeError` for every
non-dict response, `KeyError` for every dict without the `homeworks` key,
`TypeError` for every dict whose `homeworks` value is not a list
(including `None`), and returns normally whenever the value is a list,
the empty list included. -/
theorem c6_check_response_spec :
    (∀ v : Value, v.isDict = false →
      check_response v = .error (.typeError (API_TYPE_ERROR_TEXT (pyTypeOf v))))
    ∧ (∀ es, dictHasKey es "homeworks" = false →
        check_response (.vDict es) = .error (.keyError (MISSING_API_KEY_ERROR_TEXT "homeworks")))
    ∧ (∀ es, dictHasKey es "homeworks" = true → (dictGetD es "homeworks").isList = false →
        check_response (.vDict es) =
          .error (.typeError (VALUE_NOT_LIST_ERROR_TEXT "homeworks" (pyTypeOf (dictGetD es "homeworks")))))
    ∧ (∀ es, dictHasKey es "homeworks" = true → (dictGetD es "homeworks").isList = true →
        check_response (.vDict es) = .ok ()) := by
  refine ⟨?_, ?_, ?_, ?_⟩
  · intro v hv
    cases v <;> simp_all [check_response, Value.isDict]
  · intro es h
    simp [check_response, h]
  · intro es hk hl
    simp [check_response, hk, hl]
  · intro es hk hl
    simp [check_response, hk, hl]

/-- Witness for C6: each branch applied at a concrete response. -/
theorem c6_check_response_spec_witness :
    check_response (.vStr "nope") = .error (.typeError (API_TYPE_ERROR_TEXT (pyTypeOf (.vStr "nope"))))
    ∧ check_response (.vDict [("current_date", .vInt 3)]) =
        .error (.keyError (MISSING_API_KEY_ERROR_TEXT "homeworks"))
    ∧ check_response (.vDict [("homeworks", .vNone)]) =
        .error (.typeError (VALUE_NOT_LIST_ERROR_TEXT "homeworks" (pyTypeOf (dictGetD [("homeworks", .vNone)] "homeworks"))))
    ∧ check_response (.vDict [("homeworks", .vList [])]) = .ok () :=
  ⟨c6_check_response_spec.1 (.vStr "nope") rfl,
   c6_check_response_spec.2.1 [("current_date", .vInt 3)] rfl,
   c6_check_response_spec.2.2.1 [("homeworks", .vNone)] rfl rfl,
   c6_check_response_spec.2.2.2 [("homeworks", .vList [])] rfl rfl⟩

/-- Claim C7 (confirmed): within one dedupe window (no clears), a given
error text is delivered at most once across any run of
`send_error_message` calls; `clean_error_messages` clears the list once
`today` reaches the boundary and moves the boundary one day forward,
after which the same text is sent again on a cleared list. -/
theorem c7_dedupe_window :
    (∀ events msgs t, ((sendErrorsTrace events msgs).1.count t) ≤ 1)
    ∧ (∀ today cd msgs, cd ≤ today →
        clean_error_messages today cd msgs = (today + ONE_DAY, []))
    ∧ (∀ m, send_error_message true m [] =
        .ok ([m], [(LogLevel.debug, SENT_SUCCESSFULLY_LOG_TEXT m)], [m])) := by
  refine ⟨trace_count_le_one, ?_, ?_⟩
  · intro today cd msgs h
    simp [clean_error_messages, h]
  · intro m
    rfl

/-- Witness for C7: a run that repeats one text three times delivers it at
most once; a due boundary clears the list; the cleared list lets the text
through again. -/
theorem c7_dedupe_window_witness :
    ((sendErrorsTrace [(true, "boom"), (true, "boom"), (false, "boom")] []).1.count "boom") ≤ 1
    ∧ clean_error_messages 7 7 ["boom"] = (8, [])
    ∧ send_error_message true "boom" [] =
        .ok (["boom"], [(LogLevel.debug, SENT_SUCCESSFULLY_LOG_TEXT "boom")], ["boom"]) :=
  ⟨c7_dedupe_window.1 [(true, "boom"), (true, "boom"), (false, "boom")] [] "boom",
   c7_dedupe_window.2.1 7 7 ["boom"] (by decide),
   c7_dedupe_window.2.2 "boom"⟩

/-- Claim C8 (confirmed): `logic_for_while_loop` returns normally on every
input (first conjunct); whenever the try block raises, the matching except
clause logs the formatted message at error level, hands it to the
deduplicated `send_error_message`, and the function returns
`DEFAULT_FROM_DATE` (second conjunct); every iteration of the main loop
therefore completes and the loop continues (third conjunct). -/
theorem c8_every_error_caught :
    (∀ env t msgs, (logic_for_while_loop env t msgs).isOk = true)
    ∧ (∀ env t msgs e, (cycleBody env t).2.2 = Except.error e →
        ∃ r, logic_for_while_loop env t msgs = .ok r
          ∧ r.nextTimestamp = DEFAULT_FROM_DATE
          ∧ ∃ m, (LogLevel.error, m) ∈ r.log
              ∧ ∃ d2 l2, send_error_message env.deliveryOk m msgs = .ok (d2, l2, r.messages))
    ∧ (∀ env today s, (main_step env today s).isOk = true) := by
  refine ⟨?_, ?_, ?_⟩
  · intro env t msgs
    obtain ⟨r, hr⟩ := logic_isOk env t msgs
    rw [hr]; rfl
  · intro env t msgs e he
    unfold logic_for_while_loop
    rcases hcb : cycleBody env t with ⟨d, lg, out⟩
    rw [hcb] at he
    simp only at he
    subst he
    cases e <;>
      · obtain ⟨r, hr, hts, hmem, d2, l2, hsend⟩ := exceptClause_spec _ env msgs d lg _
        exact ⟨r, hr, hts, _, hmem, d2, l2, hsend⟩
  · intro env today s
    unfold main_step
    rcases hc : clean_error_messages today s.clean_messages_date s.sent_messages with ⟨cd, msgs⟩
    obtain ⟨r, hr⟩ := logic_isOk env s.timestamp msgs
    simp [hr, Except.isOk, Except.toBool]

/-- Witness for C8: a cycle whose fetch fails at the transport level is
caught, logged, surfaced and returns the default cursor. -/
theorem c8_every_error_caught_witness :
    (logic_for_while_loop ⟨.error "boom", true⟩ 3 []).isOk = true
    ∧ (∃ r, logic_for_while_loop ⟨.error "boom", true⟩ 3 [] = .ok r
        ∧ r.nextTimestamp = DEFAULT_FROM_DATE
        ∧ ∃ m, (LogLevel.error, m) ∈ r.log
            ∧ ∃ d2 l2, send_error_message true m [] = .ok (d2, l2, r.messages))
    ∧ (main_step ⟨.error "boom", true⟩ 0 ⟨3, 1, []⟩).isOk = true :=
  ⟨c8_every_error_caught.1 ⟨.error "boom", true⟩ 3 [],
   c8_every_error_caught.2.1 ⟨.error "boom", true⟩ 3 []
     (.connectionError (FOR_GET_API_ANSWER_ERROR_TEXT NETWORK_ERROR_TEXT ENDPOINT
       HEADERS_STR (toString (3 : Int)) "boom")) rfl,
   c8_every_error_caught.2.2 ⟨.error "boom", true⟩ 0 ⟨3, 1, []⟩⟩

/-- Claim C9, counterexample: when delivery fails, `send_message` does not
fail with any wrapping error — it returns normally, having only logged the
failure at error level. -/
theorem c9_send_message_swallows_failure :
    send_message false "msg" =
      .ok ([], [(LogLevel.error, SEND_MESSAGE_ERROR_TEXT "msg" "<exception>")]) :=
  rfl

/-- Claim C9, amended: `send_message` catches the underlying transport
failure instead of wrapping it in an error — it returns normally on every
input, logging the failure at error level when delivery fails — and a
delivery failure is never fatal to the poll loop: every cycle with a
failing channel still completes normally. -/
theorem c9_delivery_failure_not_fatal :
    (∀ ok m, (send_message ok m).isOk = true)
    ∧ (∀ m, send_message false m =
        .ok ([], [(LogLevel.error, SEND_MESSAGE_ERROR_TEXT m "<exception>")]))
    ∧ (∀ transport t msgs, ∃ r, logic_for_while_loop ⟨transport, false⟩ t msgs = .ok r) := by
  refine ⟨?_, ?_, ?_⟩
  · intro ok m
    cases ok <;> rfl
  · intro m
    rfl
  · intro transport t msgs
    exact logic_isOk ⟨transport, false⟩ t msgs

/-- Claim C10, counterexample: a parsed body containing the `error` key
does not always raise `APIAnswerError` — when the value under `error` is
not a dict, building the error message calls `.get` on it and an
`AttributeError` escapes instead, even with HTTP status 200. -/
theorem c10_error_payload_attribute_error :
    get_api_answer (.ok ⟨200, .vDict [("error", .vStr "boom")]⟩) 0 =
      .error (.attributeError ("\x27str\x27 object has no attribute " ++ "\x27get\x27")) :=
  rfl

/-- Claim C10, amended: embedded-payload classification precedes the HTTP
status check — for every dict body with an `error` key whose value is a
dict, `APIAnswerError` is raised regardless of status; when the `error`
value is not a dict, an `AttributeError` is raised instead, still
regardless of status; for every dict body with `code` but no `error`,
`NotAuthenticatedError` is raised regardless of status; and the non-200
`UnknownAPIAnswerError` arises only when the body has neither key. -/
theorem c10_payload_precedence (es : List (String × Value)) (status t : Int) :
    (∀ inner, dictFind es "error" = some (.vDict inner) →
      get_api_answer (.ok ⟨status, .vDict es⟩) t =
        .error (.apiAnswerError ("Error: " ++ pyStr (dictGetD inner "error") ++ "\n"
          ++ "Code: " ++ pyStr (dictGetD es "cose"))))
    ∧ (∀ v, dictFind es "error" = some v → v.isDict = false →
        get_api_answer (.ok ⟨status, .vDict es⟩) t =
          .error (.attributeError (pyTypeQuoted v ++ " object has no attribute " ++ "\x27get\x27")))
    ∧ (dictHasKey es "error" = false → dictHasKey es "code" = true →
        get_api_answer (.ok ⟨status, .vDict es⟩) t =
          .error (.notAuthenticatedError ("Code: " ++ pyStr (dictGetD es "code") ++ "\n"
            ++ "Message: " ++ pyStr (dictGetD es "message"))))
    ∧ (dictHasKey es "error" = false → dictHasKey es "code" = false → status ≠ 200 →
        get_api_answer (.ok ⟨status, .vDict es⟩) t =
          .error (.unknownAPIAnswerError (FOR_GET_API_ANSWER_ERROR_TEXT
            UNKNOWN_API_ERROR_TEXT ENDPOINT HEADERS_STR (toString t) ""))) := by
  refine ⟨?_, ?_, ?_, ?_⟩
  · intro inner h
    have hk : dictHasKey es "error" = true := by simp [dictHasKey, h]
    simp only [get_api_answer, pyContains, hk, pyGetAttrGet_dict]
    rw [show dictGetD es "error" = .vDict inner from by simp [dictGetD, h]]
    simp only [pyGetAttrGet_dict]
  · intro v h hv
    have hk : dictHasKey es "error" = true := by simp [dictHasKey, h]
    have hv2 : pyGetAttrGet v "error" =
        .error (.attributeError (pyTypeQuoted v ++ " object has no attribute " ++ "\x27get\x27")) := by
      cases v <;> simp_all [pyGetAttrGet, Value.isDict]
    simp only [get_api_answer, pyContains, hk, pyGetAttrGet_dict]
    rw [show dictGetD es "error" = v from by simp [dictGetD, h]]
    simp only [hv2]
  · intro he hc
    simp only [get_api_answer, pyContains, he, hc, pyGetAttrGet_dict]
  · intro he hc hst
    simp only [get_api_answer, pyContains, he, hc, if_pos hst]

/-- Witness for the amended C10: each classification branch at a concrete
body, with a non-200 status where the claim says the status is ignored. -/
theorem c10_payload_precedence_witness :
    get_api_answer (.ok ⟨503, .vDict [("error", .vDict [("error", .vStr "down")])]⟩) 1 =
      .error (.apiAnswerError ("Error: " ++ pyStr (dictGetD [("error", .vStr "down")] "error") ++ "\n"
        ++ "Code: " ++ pyStr (dictGetD [("error", .vDict [("error", .vStr "down")])] "cose")))
    ∧ get_api_answer (.ok ⟨503, .vDict [("error", .vInt 9)]⟩) 1 =
        .error (.attributeError (pyTypeQuoted (.vInt 9) ++ " object has no attribute " ++ "\x27get\x27"))
    ∧ get_api_answer (.ok ⟨503, .vDict [("code", .vStr "auth")]⟩) 1 =
        .error (.notAuthenticatedError ("Code: " ++ pyStr (dictGetD [("code", .vStr "auth")] "code") ++ "\n"
          ++ "Message: " ++ pyStr (dictGetD [("code", .vStr "auth")] "message")))
    ∧ get_api_answer (.ok ⟨503, .vDict [("homeworks", .vList [])]⟩) 1 =
        .error (.unknownAPIAnswerError (FOR_GET_API_ANSWER_ERROR_TEXT
          UNKNOWN_API_ERROR_TEXT ENDPOINT HEADERS_STR (toString (1 : Int)) "")) :=
  ⟨(c10_payload_precedence [("error", .vDict [("error", .vStr "down")])] 503 1).1
      [("error", .vStr "down")] rfl,
   (c10_payload_precedence [("error", .vInt 9)] 503 1).2.1 (.vInt 9) rfl rfl,
   (c10_payload_precedence [("code", .vStr "auth")] 503 1).2.2.1 rfl rfl,
   (c10_payload_precedence [("homeworks", .vList [])] 503 1).2.2.2 rfl rfl (by decide)⟩
